import Mathlib

/-!
Verification of the swarmit controller core (src/testbed/swarmit) against its
natural-language specification.  The Python code is shallowly embedded: pure
computations become Lean functions on `Nat` and `List Nat` (bytes are `Nat`
values below 256, machine words are reduced with explicit `% 2 ^ w`), the
controller object becomes an explicit state record, frame emission becomes an
output trace, and code paths that raise uncaught Python exceptions return
`none`.
-/

set_option maxRecDepth 20000

namespace Swarmit

/-! ## Constants (controller.py lines 36-42) -/

def CHUNK_SIZE : Nat := 128
def COMMAND_TIMEOUT : Nat := 5
def STATUS_TIMEOUT : Nat := 2
def OTA_CHUNK_MAX_RETRIES_DEFAULT : Nat := 5
def BROADCAST_ADDRESS : Nat := 0xFFFFFFFFFFFFFFFF

/-! ## SHA-256 (the `cryptography` library's `hashes.SHA256`, FIPS 180-4),
embedded over `Nat` so the digest computed by `start_ota` is executable.
Words are 32-bit, kept reduced with `% 4294967296`. -/

def w32 (n : Nat) : Nat := n % 4294967296

def rotr32 (x n : Nat) : Nat := w32 ((x >>> n) ||| (x <<< (32 - n)))

def not32 (x : Nat) : Nat := Nat.xor x 4294967295

def sha_ch (x y z : Nat) : Nat := Nat.xor (Nat.land x y) (Nat.land (not32 x) z)

def sha_maj (x y z : Nat) : Nat :=
  Nat.xor (Nat.xor (Nat.land x y) (Nat.land x z)) (Nat.land y z)

def bsig0 (x : Nat) : Nat := Nat.xor (Nat.xor (rotr32 x 2) (rotr32 x 13)) (rotr32 x 22)

def bsig1 (x : Nat) : Nat := Nat.xor (Nat.xor (rotr32 x 6) (rotr32 x 11)) (rotr32 x 25)

def ssig0 (x : Nat) : Nat := Nat.xor (Nat.xor (rotr32 x 7) (rotr32 x 18)) (x >>> 3)

def ssig1 (x : Nat) : Nat := Nat.xor (Nat.xor (rotr32 x 17) (rotr32 x 19)) (x >>> 10)

/-- The 64 SHA-256 round constants, in decimal. -/
def shaK : List Nat :=
  [1116352408, 1899447441, 3049323471, 3921009573, 961987163, 1508970993, 2453635748,
   2870763221, 3624381080, 310598401, 607225278, 1426881987, 1925078388, 2162078206,
   2614888103, 3248222580, 3835390401, 4022224774, 264347078, 604807628, 770255983,
   1249150122, 1555081692, 1996064986, 2554220882, 2821834349, 2952996808, 3210313671,
   3336571891, 3584528711, 113926993, 338241895, 666307205, 773529912, 1294757372,
   1396182291, 1695183700, 1986661051, 2177026350, 2456956037, 2730485921, 2820302411,
   3259730800, 3345764771, 3516065817, 3600352804, 4094571909, 275423344, 430227734,
   506948616, 659060556, 883997877, 958139571, 1322822218, 1537002063, 1747873779,
   1955562222, 2024104815, 2227730452, 2361852424, 2428436474, 2756734187, 3204031479,
   3329325298]

/-- The eight SHA-256 initial hash values, in decimal. -/
def shaH0 : List Nat :=
  [1779033703, 3144134277, 1013904242, 2773480762, 1359893119, 2600822924, 528734635,
   1541459225]

/-- Extend a 16-word block to the 64-word message schedule. -/
def shaSchedule (ws : List Nat) : Nat → List Nat
  | 0 => ws
  | n + 1 =>
    let l := ws.length
    let next := w32 (ssig1 (ws.getD (l - 2) 0) + ws.getD (l - 7) 0 +
      ssig0 (ws.getD (l - 15) 0) + ws.getD (l - 16) 0)
    shaSchedule (ws ++ [next]) n

/-- One round of the SHA-256 compression function on the 8-word working state. -/
def shaRound (st : List Nat) (kw : Nat × Nat) : List Nat :=
  let a := st.getD 0 0
  let b := st.getD 1 0
  let c := st.getD 2 0
  let d := st.getD 3 0
  let e := st.getD 4 0
  let f := st.getD 5 0
  let g := st.getD 6 0
  let h := st.getD 7 0
  let t1 := h + bsig1 e + sha_ch e f g + kw.1 + kw.2
  let t2 := bsig0 a + sha_maj a b c
  [w32 (t1 + t2), a, b, c, w32 (d + t1), e, f, g]

/-- Compress one 16-word block into the running hash state. -/
def shaCompress (H : List Nat) (block : List Nat) : List Nat :=
  let ws := shaSchedule block 48
  let st := (shaK.zip ws).foldl shaRound H
  (H.zip st).map fun p => w32 (p.1 + p.2)

/-- Group a byte list into big-endian 32-bit words. -/
def bytesToWords : List Nat → List Nat
  | b0 :: b1 :: b2 :: b3 :: rest =>
    (b0 * 16777216 + b1 * 65536 + b2 * 256 + b3) :: bytesToWords rest
  | _ => []

/-- Big-endian byte serialization of `n` on `len` bytes. -/
def natToBytesBE (n : Nat) : Nat → List Nat
  | 0 => []
  | len + 1 => natToBytesBE (n / 256) len ++ [n % 256]

/-- SHA-256 padding: append `0x80`, zero bytes, then the 64-bit big-endian bit
length, reaching a multiple of 64 bytes. -/
def shaPad (msg : List Nat) : List Nat :=
  let L := msg.length
  msg ++ 128 :: List.replicate ((119 - L % 64) % 64) 0 ++ natToBytesBE (L * 8) 8

/-- Fold the compression function over `fuel` consecutive 16-word blocks. -/
def shaBlocks (H : List Nat) (ws : List Nat) : Nat → List Nat
  | 0 => H
  | n + 1 => shaBlocks (shaCompress H (ws.take 16)) (ws.drop 16) n

/-- Big-endian 4-byte serialization of a 32-bit word. -/
def wordBytes (w : Nat) : List Nat :=
  [w / 16777216 % 256, w / 65536 % 256, w / 256 % 256, w % 256]

/-- SHA-256 of a byte string, as a 32-byte list. -/
def sha256 (msg : List Nat) : List Nat :=
  let ws := bytesToWords (shaPad msg)
  (shaBlocks shaH0 ws (ws.length / 16)).flatMap wordBytes

/-! ## Firmware chunking (controller.py, `Controller.start_ota` lines 543-563;
the identical loop appears in experiment.py lines 306-326). -/

/-- Data chunk record (controller.py lines 45-51). -/
structure DataChunk where
  index : Nat
  size : Nat
  data : List Nat
  deriving Repr, DecidableEq, Inhabited

/-- Chunk count: the Python `int(len(firmware) / CHUNK_SIZE) + int(len(firmware)
% CHUNK_SIZE != 0)` (controller.py lines 545-547); the float division is exact
for all realistic firmware sizes, so it is `Nat` division here. -/
def chunksCount (L : Nat) : Nat :=
  L / CHUNK_SIZE + (if L % CHUNK_SIZE ≠ 0 then 1 else 0)

/-- The chunk-construction loop of `start_ota` (controller.py lines 548-563):
chunk `i` has size `CHUNK_SIZE`, except the last, which gets
`len(firmware) % CHUNK_SIZE`; its data is the slice
`firmware[i * CHUNK_SIZE : i * CHUNK_SIZE + size]`. -/
def makeChunks (fw : List Nat) : List DataChunk :=
  let n := chunksCount fw.length
  (List.range n).map fun i =>
    let size := if i = n - 1 then fw.length % CHUNK_SIZE else CHUNK_SIZE
    { index := i, size := size, data := (fw.drop (i * CHUNK_SIZE)).take size }

/-- The session hash of `start_ota` (controller.py lines 544-564): the digest is
updated with each chunk's `data` in index order and then finalized, so it is
SHA-256 of the concatenation of the chunk data (not necessarily of the
firmware itself). -/
def fwHash (fw : List Nat) : List Nat :=
  sha256 ((makeChunks fw).flatMap fun c => c.data)

/-! ## Device status.

Modelled from the spec: the `StatusType` enumeration used by controller.py
(`Bootloader`, `Running`, `Programming`, `Resetting`, `Off`) lives in a
protocol module that is not under src/ — the src/testbed/swarmit/protocol.py
shipped alongside is an older revision listing only `Ready = 0`, `Running = 1`,
`Off = 2` (the spec describes `Bootloader` as "ready to receive firmware", so
`Bootloader` is code 0, matching scenario 1 of the spec where wire byte `00`
means Bootloader and `01` means Running).  `Off` keeps its code 2 from the src
protocol.py; `Programming` and `Resetting` take the remaining codes. -/

inductive StatusType where
  | Bootloader
  | Running
  | Programming
  | Resetting
  | Off
  deriving Repr, DecidableEq, Inhabited

/-- Decoding a wire status byte, the Python `StatusType(packet.payload.status)`;
`none` models the uncaught `ValueError` on an unlisted code. -/
def StatusType.ofCode : Nat → Option StatusType
  | 0 => some .Bootloader
  | 1 => some .Running
  | 2 => some .Off
  | 3 => some .Programming
  | 4 => some .Resetting
  | _ => none

/-! ## Association lists with Python `dict` semantics.

Device addresses are modelled by their numeric value: the source keys its
dictionaries with the hex string `f"{addr:08X}"` and converts back with
`int(addr, 16)`; on the well-formed addresses appearing here that rendering is
injective, so equality and membership agree with the model.  A `dict` update of
an existing key keeps its position; a new key is appended. -/

def lookupA {β : Type} : List (Nat × β) → Nat → Option β
  | [], _ => none
  | (a, b) :: m, k => if a = k then some b else lookupA m k

def updateA {β : Type} : List (Nat × β) → Nat → β → List (Nat × β)
  | [], k, v => [(k, v)]
  | (a, b) :: m, k, v => if a = k then (k, v) :: m else (a, b) :: updateA m k v

/-! ## Controller state (controller.py lines 230-243). -/

/-- Per-chunk transfer bookkeeping (controller.py lines 63-73).  The source
stores `index` and `size` as display strings `f"{i:03d}"` and
`f"{size:03d}B"`; the model stores the rendered numbers. -/
structure Chunk where
  index : Nat
  size : Nat
  acked : Nat
  retries : Nat
  deriving Repr, DecidableEq, Inhabited

/-- Per-device transfer status (controller.py lines 76-81).  `hashes_match` is
initialized to `False` (0) and later assigned the integer wire field. -/
structure TransferDataStatus where
  chunks : List Chunk
  hashes_match : Nat
  deriving Repr, DecidableEq, Inhabited

/-- The mutable fields of `Controller` that the verified operations touch.
`devices` is the allow-list `settings.devices`.  `known_devices` is not a
field: the source caches `self._known_devices = self.status_data`, which
aliases the same dictionary, so the views read `status_data` directly. -/
structure ControllerState where
  devices : List Nat
  status_data : List (Nat × StatusType)
  start_ota_addrs : List Nat
  chunks : List DataChunk
  fw_hash : List Nat
  transfer_data : List (Nat × TransferDataStatus)
  deriving Repr, DecidableEq, Inhabited

/-- The `ready_devices` view (controller.py lines 301-314): addresses whose
status is `Bootloader`, restricted to the allow-list when it is non-empty. -/
def ControllerState.ready_devices (s : ControllerState) : List Nat :=
  (s.status_data.filter fun p =>
    decide (p.2 = StatusType.Bootloader ∧ (s.devices = [] ∨ p.1 ∈ s.devices))).map Prod.fst

/-- The `running_devices` view (controller.py lines 269-284): status `Running`
or `Programming`, restricted to the allow-list when it is non-empty. -/
def ControllerState.running_devices (s : ControllerState) : List Nat :=
  (s.status_data.filter fun p =>
    decide ((p.2 = StatusType.Running ∨ p.2 = StatusType.Programming) ∧
      (s.devices = [] ∨ p.1 ∈ s.devices))).map Prod.fst

/-! ## Frames. -/

/-- Payloads the controller emits (testbed/swarmit/protocol.py record types;
field layout per spec section 6). -/
inductive Payload where
  | startRequest
  | stopRequest
  | resetRequest (pos_x pos_y : Int)
  | message (count : Nat) (data : List Nat)
  | otaStartRequest (fw_length : Nat) (fw_chunk_count : Nat) (fw_hash : List Nat)
  | otaChunkRequest (index : Nat) (count : Nat) (chunk : List Nat)
  deriving Repr, DecidableEq

/-- One outbound frame: `Controller.send_payload(destination, payload)`
(controller.py lines 325-327). -/
structure Emission where
  destination : Nat
  payload : Payload
  deriving Repr, DecidableEq

/-- Inbound payloads dispatched by `on_frame_received`.  `raw code` stands for
any other payload type byte (gateway-internal below 0x80, unknown above). -/
inductive RxPayload where
  | statusNotification (status : Nat)
  | otaStartAck
  | otaChunkAck (index : Nat) (hashes_match : Nat)
  | eventGpio (timestamp : Nat) (count : Nat) (data : List Nat)
  | eventLog (timestamp : Nat) (count : Nat) (data : List Nat)
  | raw (code : Nat)
  deriving Repr, DecidableEq

/-- One inbound frame: header source address plus parsed payload. -/
structure RxFrame where
  source : Nat
  payload : RxPayload
  deriving Repr, DecidableEq

/-- Log records produced by `on_frame_received`. -/
inductive LogEvent where
  | warnChunkIndex (addr : Nat) (index : Nat)
  | infoEvent (addr : Nat)
  | errorUnknownPayload (code : Nat)
  deriving Repr, DecidableEq

/-! ## Inbound dispatch (controller.py, `Controller.on_frame_received`,
lines 329-403). -/

/-- The frame dispatcher.  Returns `none` where the Python would raise an
uncaught exception (a `StatusNotification` whose byte is no `StatusType`
code); otherwise the updated state and the log records emitted.  The
chunk-ack branch wraps its dictionary/list accesses in
`try ... except (IndexError, KeyError)`, logging a warning and returning with
no state change when the source or the index is unknown. -/
def on_frame_received (s : ControllerState) (f : RxFrame) :
    Option (ControllerState × List LogEvent) :=
  match f.payload with
  | .statusNotification code =>
    match StatusType.ofCode code with
    | none => none
    | some st =>
      some ({ s with status_data := updateA s.status_data f.source st }, [])
  | .otaStartAck =>
    if f.source ∈ s.start_ota_addrs then some (s, [])
    else some ({ s with start_ota_addrs := s.start_ota_addrs ++ [f.source] }, [])
  | .otaChunkAck idx hm =>
    match lookupA s.transfer_data f.source with
    | none => some (s, [.warnChunkIndex f.source idx])
    | some t =>
      match t.chunks[idx]? with
      | none => some (s, [.warnChunkIndex f.source idx])
      | some c =>
        let t1 := if c.acked = 0 then { t with chunks := t.chunks.set idx { c with acked := 1 } }
          else t
        let t2 := { t1 with hashes_match := hm }
        some ({ s with transfer_data := updateA s.transfer_data f.source t2 }, [])
  | .eventGpio _ _ _ =>
    if s.devices ≠ [] ∧ f.source ∉ s.devices then some (s, [])
    else some (s, [.infoEvent f.source])
  | .eventLog _ _ _ =>
    if s.devices ≠ [] ∧ f.source ∉ s.devices then some (s, [])
    else some (s, [.infoEvent f.source])
  | .raw code =>
    if code < 0x80 then some (s, [])
    else some (s, [.errorUnknownPayload code])

/-- Fold the dispatcher over the frames delivered by the receive worker,
collecting logs; `none` as soon as a frame crashes the handler. -/
def processFrames (s : ControllerState) : List RxFrame →
    Option (ControllerState × List LogEvent)
  | [] => some (s, [])
  | f :: fs =>
    match on_frame_received s f with
    | none => none
    | some (s1, l1) =>
      match processFrames s1 fs with
      | none => none
      | some (s2, l2) => some (s2, l1 ++ l2)

/-- State-only view of `processFrames`. -/
def processFramesQ (s : ControllerState) (fs : List RxFrame) : Option ControllerState :=
  (processFrames s fs).map Prod.fst

/-! ## Command operations.

Each operation returns the frames it emits and its Python return value; time
is abstracted away, and `rx` stands for the frames the receive worker delivers
while the operation's wait loop runs. -/

/-- The `status` operation (controller.py lines 405-415).  The body only
refreshes a live display for `STATUS_TIMEOUT` seconds — it sends no frame —
and then returns `self.status_data`, which the concurrent receive worker has
been updating from the delivered frames. -/
def Controller.status (s : ControllerState) (rx : List RxFrame) :
    List Emission × Option (ControllerState × List (Nat × StatusType)) :=
  ([], (processFramesQ s rx).map fun s1 => (s1, s1.status_data))

/-- The `start` operation (controller.py lines 431-445): broadcast one
`StartRequest` when the allow-list is empty, otherwise one unicast per
allow-listed device that is in `ready_devices`; return the addresses whose
registry status is `Running`.  The `_send_start` wait loops emit nothing. -/
def Controller.start (s : ControllerState) : List Emission × List Nat :=
  let ready := s.ready_devices
  let ems := if s.devices.isEmpty then [⟨BROADCAST_ADDRESS, .startRequest⟩]
    else (s.devices.filter fun d => decide (d ∈ ready)).map fun d =>
      (⟨d, .startRequest⟩ : Emission)
  (ems, (s.status_data.filter fun p => decide (p.2 = StatusType.Running)).map Prod.fst)

/-- The `start_ota` operation (controller.py lines 540-574): rebuild the chunk
list and session hash, then send one `OTAStartRequest` — broadcast when the
allow-list is empty, otherwise one per allow-listed device, with no readiness
filtering.  The `_send_start_ota` wait loops emit nothing.  Returns the state
with the new session (ack set reset). -/
def Controller.start_ota (s : ControllerState) (firmware : List Nat) :
    List Emission × ControllerState :=
  let chunks := makeChunks firmware
  let h := fwHash firmware
  let payload := Payload.otaStartRequest firmware.length chunks.length h
  let ems := if s.devices.isEmpty then [⟨BROADCAST_ADDRESS, payload⟩]
    else s.devices.map fun d => (⟨d, payload⟩ : Emission)
  (ems, { s with chunks := chunks, fw_hash := h, start_ota_addrs := [] })

/-! ## The chunk transfer loop (controller.py, `Controller.send_chunk` lines
576-620 and `Controller.transfer` lines 622-658). -/

/-- Insertion sort on addresses, standing for Python's `sorted`; two lists
compare equal after `sorted` iff they sort equal here. -/
def insertSorted (x : Nat) : List Nat → List Nat
  | [] => [x]
  | y :: ys => if x ≤ y then x :: y :: ys else y :: insertSorted x ys

def sortNat (l : List Nat) : List Nat := l.foldr insertSorted []

/-- The `is_chunk_acknowledged` predicate of `send_chunk` (lines 579-595).
Broadcast destination: the transfer map's key set must equal `ready_devices`
(as sorted lists) and every entry must have the chunk acked; the second
conjunct is only evaluated when the first holds (Python `and`
short-circuits).  Unicast: the target must be a key and have the chunk acked.
`none` models the uncaught `IndexError` when `chunk.index` is out of range of
a consulted entry. -/
def is_chunk_acknowledged (s : ControllerState) (chunk : DataChunk)
    (device_addr : Nat) : Option Bool :=
  if device_addr = BROADCAST_ADDRESS then
    if sortNat (s.transfer_data.map Prod.fst) ≠ sortNat s.ready_devices then some false
    else
      s.transfer_data.foldr (fun p acc =>
        match p.2.chunks[chunk.index]? with
        | none => none
        | some c => acc.map fun b => b && decide (c.acked ≠ 0)) (some true)
  else
    match lookupA s.transfer_data device_addr with
    | none => some false
    | some t =>
      match t.chunks[chunk.index]? with
      | none => none
      | some c => some (decide (c.acked ≠ 0))

/-- Record `retries_count` in one device's entry for this chunk (lines
610-616); `none` models the uncaught `KeyError`/`IndexError` when the device
or index is missing. -/
def setChunkRetries (td : List (Nat × TransferDataStatus)) (addr idx rc : Nat) :
    Option (List (Nat × TransferDataStatus)) :=
  match lookupA td addr with
  | none => none
  | some t =>
    match t.chunks[idx]? with
    | none => none
    | some c => some (updateA td addr { t with chunks := t.chunks.set idx { c with retries := rc } })

/-- The per-send bookkeeping of `send_chunk` (lines 607-616): broadcast
destination updates the retry counter of every ready device's entry, unicast
only the target's. -/
def setRetriesAfterSend (s : ControllerState) (chunk : DataChunk)
    (device_addr rc : Nat) : Option ControllerState :=
  if device_addr = BROADCAST_ADDRESS then
    (s.ready_devices.foldl (fun acc addr =>
        match acc with
        | none => none
        | some td => setChunkRetries td addr chunk.index rc)
      (some s.transfer_data)).map fun td => { s with transfer_data := td }
  else
    (setChunkRetries s.transfer_data device_addr chunk.index rc).map fun td =>
      { s with transfer_data := td }

/-- One observed iteration of the `send_chunk` while-loop: the frames the
receive worker delivers during it, and whether `time.time() - send_time >
timeout` holds at its end (which sets `send` for the next iteration). -/
structure LoopObs where
  rx : List RxFrame
  expired : Bool
  deriving Repr, DecidableEq

/-- The wire payload of one chunk transmission (lines 602-606). -/
def chunkPayload (chunk : DataChunk) : Payload :=
  .otaChunkRequest chunk.index chunk.size chunk.data

/-- The `send_chunk` while-loop (lines 597-620), driven by the observation
trace: it runs while the ack predicate is false and `retries_count <=
retries`; an iteration with `send` true transmits the chunk, records the
retry counter, and increments `retries_count`.  Entered with `send = true`
and `retries_count = 0`.  Returns the transmissions made and the final state
(`none` after an uncaught exception; an exhausted trace just truncates the
observation). -/
def send_chunk_loop (chunk : DataChunk) (device_addr retries : Nat) :
    List LoopObs → Bool → Nat → ControllerState →
    List Emission × Option ControllerState
  | [], _, _, s =>
    match is_chunk_acknowledged s chunk device_addr with
    | none => ([], none)
    | some _ => ([], some s)
  | obs :: rest, send, rc, s =>
    match is_chunk_acknowledged s chunk device_addr with
    | none => ([], none)
    | some ackd =>
      if ackd ∨ retries < rc then ([], some s)
      else
        if send then
          match setRetriesAfterSend s chunk device_addr rc with
          | none => ([⟨device_addr, chunkPayload chunk⟩], none)
          | some s1 =>
            match processFramesQ s1 obs.rx with
            | none => ([⟨device_addr, chunkPayload chunk⟩], none)
            | some s2 =>
              let r := send_chunk_loop chunk device_addr retries rest obs.expired (rc + 1) s2
              (⟨device_addr, chunkPayload chunk⟩ :: r.1, r.2)
        else
          match processFramesQ s obs.rx with
          | none => ([], none)
          | some s2 => send_chunk_loop chunk device_addr retries rest obs.expired rc s2

/-- The fresh per-device status built by `transfer` (lines 645-649): one
`Chunk` per session chunk with `acked = 0` and `retries = 0`. -/
def initTransferStatus (chunks : List DataChunk) : TransferDataStatus :=
  { chunks := chunks.enum.map fun p => { index := p.1, size := p.2.size, acked := 0, retries := 0 },
    hashes_match := 0 }

/-- The transfer map initialization of `transfer` (lines 640-649): keyed by
the allow-list, or by `ready_devices` when the allow-list is empty. -/
def transferInitData (s : ControllerState) : List (Nat × TransferDataStatus) :=
  (if s.devices.isEmpty then s.ready_devices else s.devices).map fun d =>
    (d, initTransferStatus s.chunks)

/-- Inner fan-out of `transfer` under a non-empty allow-list: `send_chunk` per
allow-listed device, consuming one observation trace per call. -/
def sendToAll (chunk : DataChunk) (retries : Nat) :
    List Nat → List (List LoopObs) → ControllerState →
    List Emission × Option ControllerState
  | [], _, s => ([], some s)
  | a :: rest, envs, s =>
    let r := send_chunk_loop chunk a retries (envs.headD []) true 0 s
    match r.2 with
    | none => (r.1, none)
    | some s1 =>
      let r2 := sendToAll chunk retries rest (envs.drop 1) s1
      (r.1 ++ r2.1, r2.2)

/-- The chunk iteration of `transfer` (lines 650-656).  When the allow-list is
empty the call is `self.send_chunk(chunk, device_addr, ...)` where
`device_addr` is the variable left over from the initialization loop — the
LAST initialized device (`leaked`); `none` on the `NameError` when that loop
never ran. -/
def transferChunks (sdevices : List Nat) (leaked : Option Nat) (retries : Nat) :
    List DataChunk → List (List LoopObs) → ControllerState →
    List Emission × Option ControllerState
  | [], _, s => ([], some s)
  | c :: cs, envs, s =>
    if sdevices.isEmpty then
      match leaked with
      | none => ([], none)
      | some d =>
        let r := send_chunk_loop c d retries (envs.headD []) true 0 s
        match r.2 with
        | none => (r.1, none)
        | some s1 =>
          let r2 := transferChunks sdevices leaked retries cs (envs.drop 1) s1
          (r.1 ++ r2.1, r2.2)
    else
      let r := sendToAll c retries sdevices envs s
      match r.2 with
      | none => (r.1, none)
      | some s1 =>
        let r2 := transferChunks sdevices leaked retries cs (envs.drop sdevices.length) s1
        (r.1 ++ r2.1, r2.2)

/-- The `transfer` operation (controller.py lines 622-658): reset and
initialize `transfer_data` for the expected targets, then iterate the session
chunks. -/
def Controller.transfer (s : ControllerState) (retries : Nat)
    (envs : List (List LoopObs)) : List Emission × Option ControllerState :=
  let targets := if s.devices.isEmpty then s.ready_devices else s.devices
  let s0 := { s with transfer_data := transferInitData s }
  transferChunks s.devices targets.getLast? retries s.chunks envs s0

/-! ## Example states used by the claim theorems. -/

/-- Example state for C3: empty allow-list, two devices known to be ready, a
one-chunk session. -/
def exC3 : ControllerState :=
  { devices := [], status_data := [(1, .Bootloader), (2, .Bootloader)],
    start_ota_addrs := [], chunks := [⟨0, 1, [171]⟩], fw_hash := [],
    transfer_data := [] }

/-- The observation trace for C3: the first loop iteration just sends, the
second sees device 2's ack arrive. -/
def exC3env : List (List LoopObs) :=
  [[⟨[], false⟩, ⟨[⟨2, .otaChunkAck 0 1⟩], false⟩]]

/-- Example state for C5 (spec scenario 2): allow-list `[2]`, registry maps
device 2 to Running. -/
def exC5 : ControllerState :=
  { devices := [2], status_data := [(2, .Running)], start_ota_addrs := [],
    chunks := [], fw_hash := [], transfer_data := [] }

/-- Example state for C6: allow-list `[2]`, device 2 Running (not ready). -/
def exC6 : ControllerState :=
  { devices := [2], status_data := [(2, .Running)], start_ota_addrs := [],
    chunks := [], fw_hash := [], transfer_data := [] }

/-- Example state for C8: one target with a single-chunk array. -/
def exC8 : ControllerState :=
  { devices := [], status_data := [], start_ota_addrs := [], chunks := [],
    fw_hash := [], transfer_data := [(1, ⟨[⟨0, 1, 0, 0⟩], 0⟩)] }

/-- Example state for C9: a fresh controller. -/
def exC9 : ControllerState :=
  { devices := [], status_data := [], start_ota_addrs := [], chunks := [],
    fw_hash := [], transfer_data := [] }

/-- The state after C9's witness notification. -/
def exC9res : ControllerState :=
  { devices := [], status_data := [(1, .Running)], start_ota_addrs := [],
    chunks := [], fw_hash := [], transfer_data := [] }

/-- Example state for C10: device 1 is the only initialized target. -/
def exC10 : ControllerState :=
  { devices := [], status_data := [], start_ota_addrs := [], chunks := [],
    fw_hash := [], transfer_data := [(1, ⟨[⟨0, 1, 0, 0⟩], 0⟩)] }

/-- Example state and delivery for C4 (spec scenario 1): fresh controller, two
status notifications arrive during the wait window. -/
def exC4 : ControllerState :=
  { devices := [], status_data := [], start_ota_addrs := [], chunks := [],
    fw_hash := [], transfer_data := [] }

def exC4rx : List RxFrame :=
  [⟨1, .statusNotification 1⟩, ⟨2, .statusNotification 0⟩]

/-- Example state for C7: one target (device 1) with a one-chunk array that is
never acknowledged. -/
def exC7 : ControllerState :=
  { devices := [1], status_data := [], start_ota_addrs := [], chunks := [],
    fw_hash := [], transfer_data := [(1, ⟨[⟨0, 1, 0, 0⟩], 0⟩)] }

/-- Example state for C2: empty allow-list, so `start_ota` broadcasts. -/
def exC2 : ControllerState :=
  { devices := [], status_data := [], start_ota_addrs := [], chunks := [],
    fw_hash := [], transfer_data := [] }

/-! ## Association list lemmas. -/

theorem lookupA_updateA_self {β : Type} (m : List (Nat × β)) (k : Nat) (v : β) :
    lookupA (updateA m k v) k = some v := by
  induction m with
  | nil => simp [updateA, lookupA]
  | cons p m ih =>
    obtain ⟨a, b⟩ := p
    by_cases hak : a = k
    · simp [updateA, lookupA, hak]
    · simp [updateA, lookupA, hak, ih]

theorem lookupA_some_mem {β : Type} {m : List (Nat × β)} {k : Nat} {v : β}
    (h : lookupA m k = some v) : (k, v) ∈ m := by
  induction m with
  | nil => simp [lookupA] at h
  | cons p m ih =>
    obtain ⟨a, b⟩ := p
    by_cases hak : a = k
    · simp [lookupA, hak] at h
      simp [hak, h]
    · simp [lookupA, hak] at h
      exact List.mem_cons_of_mem _ (ih h)

theorem lookupA_nodup_mem {β : Type} {k : Nat} {v w : β} :
    ∀ {m : List (Nat × β)}, (m.map Prod.fst).Nodup → lookupA m k = some v →
      (k, w) ∈ m → w = v := by
  intro m
  induction m with
  | nil =>
    intro _ _ hm
    simp at hm
  | cons p m ih =>
    intro hnd hl hm
    obtain ⟨a, b⟩ := p
    simp only [List.map_cons, List.nodup_cons] at hnd
    rcases List.mem_cons.mp hm with hh | ht
    · cases hh.symm
      simp [lookupA] at hl
      exact hl
    · by_cases hak : a = k
      · subst hak
        exact absurd (List.mem_map_of_mem Prod.fst ht) hnd.1
      · exact ih hnd.2 (by simpa [lookupA, hak] using hl) ht

theorem map_fst_updateA {β : Type} {m : List (Nat × β)} {k : Nat} {v : β}
    (h : (lookupA m k).isSome) :
    (updateA m k v).map Prod.fst = m.map Prod.fst := by
  induction m with
  | nil => simp [lookupA] at h
  | cons p m ih =>
    obtain ⟨a, b⟩ := p
    by_cases hak : a = k
    · simp [updateA, hak]
    · simp only [lookupA, if_neg hak] at h
      simp [updateA, hak, ih h]

/-! ## Claim C1: chunking. -/

/-- C1: the claim states that for every firmware of length L > 0 chunk i covers
`F[128 i : min(L, 128 (i+1))]`, every chunk is non-empty, the last chunk's
size is `((L - 1) % 128) + 1`, and the chunks concatenate to F.  The code
violates this whenever `L` is a positive multiple of 128: the last chunk's
size is computed as `L % CHUNK_SIZE = 0`, so for L = 128 the single chunk is
empty and covers `F[0:0]`, the concatenation is empty, and the required last
size would have been `((128 - 1) % 128) + 1 = 128`.  The chunk count itself
is correct. -/
theorem C1_chunking_bug_at_128 :
    makeChunks (List.replicate 128 171) = [{ index := 0, size := 0, data := [] }] ∧
    chunksCount 128 = 1 ∧
    (makeChunks (List.replicate 128 171)).flatMap (fun c => c.data) ≠
      List.replicate 128 171 ∧
    (128 - 1) % 128 + 1 = 128 := by
  refine ⟨by decide, by decide, ?_, by decide⟩
  decide

/-! ## Claim C3: transfer destinations under an empty allow-list. -/

/-- C3: the claim states that with an empty allow-list every chunk request is
broadcast to 0xFFFFFFFFFFFFFFFF and the wait predicate requires every
expected target to ack.  In the code, `transfer` passes `send_chunk` the
loop variable left over from the transfer-map initialization — the last
ready device — so with ready devices 1 and 2 the single chunk goes unicast
to device 2, the per-chunk predicate is the unicast one (device 2 only), and
the transfer completes with device 1's chunk never acknowledged. -/
theorem C3_transfer_sends_to_last_ready_device :
    (Controller.transfer exC3 5 exC3env).1 =
      [⟨2, .otaChunkRequest 0 1 [171]⟩] ∧
    (2 : Nat) ≠ BROADCAST_ADDRESS ∧
    exC3.devices = [] ∧
    exC3.ready_devices = [1, 2] ∧
    (((Controller.transfer exC3 5 exC3env).2.getD exC3).transfer_data.map fun p =>
      (p.1, p.2.chunks.map fun c => c.acked)) = [(1, [0]), (2, [1])] := by
  refine ⟨by decide, by decide, by decide, by decide, by decide⟩

/-! ## Claim C5: unicast start on a device that is not ready. -/

/-- C5 counterexample: the claim states that `start()` sends nothing and
returns the empty list.  It does send nothing, but it returns the list of
currently-Running devices, which contains device 2 — not the empty list. -/
theorem C5_start_returns_running_not_empty :
    (Controller.start exC5).1 = [] ∧
    (Controller.start exC5).2 = [2] ∧
    ([2] : List Nat) ≠ [] := by
  refine ⟨by decide, by decide, by decide⟩

/-- C5 amended: with allow-list `[d]` and the registry mapping `d` to Running
(and registry keys unique), `start()` emits no frame and returns the list of
addresses currently Running — which contains `d` itself. -/
theorem C5_amended (s : ControllerState) (d : Nat)
    (hdev : s.devices = [d])
    (hnd : (s.status_data.map Prod.fst).Nodup)
    (hrun : lookupA s.status_data d = some StatusType.Running) :
    (Controller.start s).1 = [] ∧
    (Controller.start s).2 =
      (s.status_data.filter fun p => decide (p.2 = StatusType.Running)).map Prod.fst ∧
    d ∈ (Controller.start s).2 := by
  have hnotmem : d ∉ s.ready_devices := by
    intro hmem
    unfold ControllerState.ready_devices at hmem
    simp only [List.mem_map, List.mem_filter, decide_eq_true_eq] at hmem
    obtain ⟨⟨a, b⟩, ⟨hab, hb, _⟩, hfst⟩ := hmem
    have ha : a = d := hfst
    subst ha
    have hbb : b = StatusType.Bootloader := hb
    have := lookupA_nodup_mem hnd hrun hab
    rw [hbb] at this
    cases this
  refine ⟨?_, rfl, ?_⟩
  · simp [Controller.start, hdev, hnotmem]
  · have hmem := lookupA_some_mem hrun
    show d ∈ (s.status_data.filter fun p =>
      decide (p.2 = StatusType.Running)).map Prod.fst
    exact List.mem_map.mpr ⟨(d, StatusType.Running),
      List.mem_filter.mpr ⟨hmem, by simp⟩, rfl⟩

/-- C5 witness: the amended claim evaluated at the scenario state. -/
theorem C5_amended_witness :
    (Controller.start exC5).1 = [] ∧
    (Controller.start exC5).2 =
      (exC5.status_data.filter fun p => decide (p.2 = StatusType.Running)).map Prod.fst ∧
    2 ∈ (Controller.start exC5).2 :=
  C5_amended exC5 2 rfl (by decide) (by decide)

/-! ## Claim C6: OTA operations do not filter by readiness. -/

/-- C6 counterexample: the claim states that allow-listed addresses that are
not ready are skipped (no OTA request emitted to them).  Here the only
allow-listed device is not ready (`ready_devices` is empty), yet `start_ota`
emits an `OTAStartRequest` to it. -/
theorem C6_start_ota_ignores_readiness :
    exC6.ready_devices = [] ∧
    (Controller.start_ota exC6 [171]).1.map (fun e => e.destination) = [2] ∧
    (Controller.start_ota exC6 [171]).1 ≠ [] := by
  refine ⟨by decide, by decide, by decide⟩

/-- C6 amended: under a non-empty allow-list, `start_ota` sends one
`OTAStartRequest` to every allow-listed address — ready or not — and
`transfer` initializes its per-device map for exactly the allow-listed
addresses, with no readiness filtering anywhere. -/
theorem C6_amended (s : ControllerState) (fw : List Nat) (h : s.devices ≠ []) :
    (Controller.start_ota s fw).1 = s.devices.map (fun d =>
      ⟨d, .otaStartRequest fw.length (makeChunks fw).length (fwHash fw)⟩) ∧
    (transferInitData s).map Prod.fst = s.devices := by
  have hne : s.devices.isEmpty = false := by
    cases hd : s.devices with
    | nil => exact absurd hd h
    | cons a l => rfl
  constructor
  · simp [Controller.start_ota, hne]
  · simp [transferInitData, hne, List.map_map, Function.comp_def]

/-- C6 witness: the amended claim evaluated at the scenario state. -/
theorem C6_amended_witness :
    (Controller.start_ota exC6 [171]).1 = exC6.devices.map (fun d =>
      ⟨d, .otaStartRequest 1 (makeChunks [171]).length (fwHash [171])⟩) ∧
    (transferInitData exC6).map Prod.fst = exC6.devices :=
  C6_amended exC6 [171] (by decide)

/-! ## Claim C8: out-of-range chunk acks are logged and discarded. -/

/-- C8: an `OTAChunkAck` whose index is not a valid position of the source's
chunk array (indices are unsigned on the wire, so that means `index ≥
chunks_count`) makes `on_frame_received` log a warning and return with the
state — every acked flag, retry counter and `hashes_match` value — exactly
unchanged.  The hypothesis also covers a source with no transfer entry, where
the same `except (IndexError, KeyError)` path runs. -/
theorem C8_out_of_range_ack_ignored (s : ControllerState) (src idx hm : Nat)
    (h : ∀ t, lookupA s.transfer_data src = some t → t.chunks.length ≤ idx) :
    on_frame_received s ⟨src, .otaChunkAck idx hm⟩ =
      some (s, [.warnChunkIndex src idx]) := by
  cases hl : lookupA s.transfer_data src with
  | none => simp [on_frame_received, hl]
  | some t =>
    have hg : t.chunks[idx]? = none := List.getElem?_eq_none (h t hl)
    simp [on_frame_received, hl, hg]

/-- C8 witness: an ack for index 5 against a 1-chunk array is discarded with a
warning and no state change. -/
theorem C8_witness :
    on_frame_received exC8 ⟨1, .otaChunkAck 5 0⟩ =
      some (exC8, [.warnChunkIndex 1 5]) :=
  C8_out_of_range_ack_ignored exC8 1 5 0 (by
    intro t ht
    have ht2 : some (⟨[⟨0, 1, 0, 0⟩], 0⟩ : TransferDataStatus) = some t := ht
    cases ht2
    decide)

/-! ## Claim C9: Off can be stored from wire data. -/

/-- C9 counterexample: the claim states that processing a `StatusNotification`
never stores `Off`.  But the handler stores whatever status the wire byte
decodes to, and code 2 (per src/testbed/swarmit/protocol.py, the cited
source) decodes to `Off`: after a notification with status byte 2 from
device 1, the registry maps 1 to `Off`. -/
theorem C9_off_stored_from_wire :
    ((on_frame_received exC9 ⟨1, .statusNotification 2⟩).map fun p =>
      lookupA p.1.status_data 1) = some (some StatusType.Off) := by
  decide

/-- C9 amended: processing a `StatusNotification` stores the decoded wire
status verbatim — the registry afterwards maps the source to exactly
`StatusType.ofCode code`; in particular `Off` is stored if and only if the
byte decodes to `Off` (code 2), which the devices are documented never to
send but the controller does not filter. -/
theorem C9_amended (s : ControllerState) (src code : Nat) (s1 : ControllerState)
    (log : List LogEvent)
    (h : on_frame_received s ⟨src, .statusNotification code⟩ = some (s1, log)) :
    lookupA s1.status_data src = StatusType.ofCode code := by
  cases hc : StatusType.ofCode code with
  | none => simp [on_frame_received, hc] at h
  | some v =>
    simp only [on_frame_received, hc, Option.some.injEq, Prod.mk.injEq] at h
    obtain ⟨hs1, _⟩ := h
    rw [← hs1]
    exact lookupA_updateA_self s.status_data src v

/-- C9 witness: a Running notification from device 1 stores exactly the
decoded status. -/
theorem C9_amended_witness :
    lookupA exC9res.status_data 1 = StatusType.ofCode 1 :=
  C9_amended exC9 1 1 exC9res [] rfl

/-! ## Claim C10: chunk acks never change the transfer map's key set. -/

/-- C10: processing any `OTAChunkAck` leaves the set of initialized transfer
targets unchanged, and an ack whose source has no transfer entry is logged
and discarded with the whole state unchanged. -/
theorem C10_ack_keys_invariant (s : ControllerState) (src idx hm : Nat) :
    (∀ s1 log, on_frame_received s ⟨src, .otaChunkAck idx hm⟩ = some (s1, log) →
      s1.transfer_data.map Prod.fst = s.transfer_data.map Prod.fst) ∧
    (lookupA s.transfer_data src = none →
      on_frame_received s ⟨src, .otaChunkAck idx hm⟩ =
        some (s, [.warnChunkIndex src idx])) := by
  cases hl : lookupA s.transfer_data src with
  | none =>
    refine ⟨?_, fun _ => by simp [on_frame_received, hl]⟩
    intro s1 log h
    simp only [on_frame_received, hl, Option.some.injEq, Prod.mk.injEq] at h
    rw [← h.1]
  | some t =>
    refine ⟨?_, ?_⟩
    · intro s1 log h
      cases hg : t.chunks[idx]? with
      | none =>
        simp only [on_frame_received, hl, hg, Option.some.injEq, Prod.mk.injEq] at h
        rw [← h.1]
      | some c =>
        simp only [on_frame_received, hl, hg, Option.some.injEq, Prod.mk.injEq] at h
        rw [← h.1]
        exact map_fst_updateA (by rw [hl]; rfl)
    · intro hn
      exact Option.noConfusion hn

/-- C10 witness: an ack from uninitialized device 9 is discarded with a
warning, and the key set is unchanged. -/
theorem C10_witness :
    on_frame_received exC10 ⟨9, .otaChunkAck 0 0⟩ =
      some (exC10, [.warnChunkIndex 9 0]) ∧
    exC10.transfer_data.map Prod.fst = exC10.transfer_data.map Prod.fst :=
  ⟨(C10_ack_keys_invariant exC10 9 0 0).2 rfl,
   (C10_ack_keys_invariant exC10 9 0 0).1 exC10 [.warnChunkIndex 9 0]
     ((C10_ack_keys_invariant exC10 9 0 0).2 rfl)⟩

/-! ## Claim C4: the status operation. -/

/-- C4 counterexample: the claim states that every call to `status()` first
builds and sends a `StatusRequest`.  `Controller.status` emits no frame at
all — it only waits while the receive worker fills the registry, then
returns it (here `{1: Running, 2: Bootloader}`). -/
theorem C4_status_sends_nothing :
    (Controller.status exC4 exC4rx).1 = ([] : List Emission) ∧
    (∀ e : Emission, e ∉ (Controller.status exC4 exC4rx).1) ∧
    ((Controller.status exC4 exC4rx).2.map fun p => p.2) =
      some [(1, .Running), (2, .Bootloader)] := by
  refine ⟨rfl, ?_, by decide⟩
  intro e
  simp [Controller.status]

/-- C4 amended: `status()` sends no request frame; it waits `STATUS_TIMEOUT`
while the receive worker applies the delivered frames to the registry, and
returns the registry of the resulting state.  A valid status notification
received in the window is reflected in the returned mapping. -/
theorem C4_amended (s : ControllerState) (rx : List RxFrame) :
    (Controller.status s rx).1 = [] ∧
    (∀ s1 reg, (Controller.status s rx).2 = some (s1, reg) →
      reg = s1.status_data) ∧
    (∀ src code v, StatusType.ofCode code = some v →
      ((Controller.status s [⟨src, .statusNotification code⟩]).2.map fun p =>
        lookupA p.2 src) = some (some v)) := by
  refine ⟨rfl, ?_, ?_⟩
  · intro s1 reg h
    unfold Controller.status at h
    cases hq : processFramesQ s rx with
    | none => rw [hq] at h; cases h
    | some s2 =>
      rw [hq] at h
      simp only [Option.map_some', Option.some.injEq, Prod.mk.injEq] at h
      rw [← h.1, ← h.2]
  · intro src code v hv
    simp only [Controller.status, processFramesQ, processFrames, on_frame_received, hv]
    simp [lookupA_updateA_self]

/-- C4 witness: the amended claim evaluated at the scenario state. -/
theorem C4_amended_witness :
    (Controller.status exC4 exC4rx).1 = [] ∧
    ([] : List (Nat × StatusType)) = exC4.status_data ∧
    ((Controller.status exC4 [⟨1, .statusNotification 1⟩]).2.map fun p =>
      lookupA p.2 1) = some (some StatusType.Running) :=
  ⟨(C4_amended exC4 exC4rx).1,
   (C4_amended exC4 []).2.1 exC4 [] rfl,
   (C4_amended exC4 exC4rx).2.2 1 1 StatusType.Running rfl⟩

/-! ## Claim C7: retry budget of send_chunk. -/

/-- Transmission-count bound for the `send_chunk` loop: starting from retry
counter `rc`, at most `retries + 1 - rc` transmissions happen, over every
possible observation trace. -/
theorem send_chunk_loop_tx_bound (chunk : DataChunk) (dev retries : Nat) :
    ∀ (trace : List LoopObs) (send : Bool) (rc : Nat) (s : ControllerState),
      (send_chunk_loop chunk dev retries trace send rc s).1.length ≤
        retries + 1 - rc := by
  intro trace
  induction trace with
  | nil =>
    intro send rc s
    simp only [send_chunk_loop]
    split <;> simp
  | cons obs rest ih =>
    intro send rc s
    simp only [send_chunk_loop]
    split
    · simp
    next ackd heq =>
      split
      · simp
      next hcond =>
        have hrc : rc ≤ retries := by
          rcases Nat.lt_or_ge retries rc with hlt | hge
          · exact absurd (Or.inr hlt) hcond
          · exact hge
        split
        · split
          · simp
            omega
          · split
            · simp
              omega
            · simp only [List.length_cons]
              exact Nat.le_trans (Nat.add_le_add_right (ih obs.expired (rc + 1) _) 1)
                (by omega)
        · split
          · simp
          · exact Nat.le_trans (ih obs.expired rc _) (by omega)

/-- C7 counterexample: the claim states that with the default `retries_max = 5`
a chunk is transmitted at most 5 times.  With no ack ever arriving and the
timeout expiring at every iteration, the loop transmits 6 times (the guard
is `retries_count <= retries`, so counts 0 through 5 each send): 6 > 5. -/
theorem C7_six_transmissions :
    (send_chunk_loop ⟨0, 1, [171]⟩ 1 OTA_CHUNK_MAX_RETRIES_DEFAULT
      (List.replicate 6 ⟨[], true⟩) true 0 exC7).1.length = 6 ∧
    ¬(6 ≤ 5) := by
  refine ⟨by decide, by decide⟩

/-- Exhaustion behaviour of the `send_chunk` loop on a unicast destination:
when the target has a transfer entry with the chunk's index in range and the
chunk un-acked, and no frame arrives during any iteration (observations
`⟨[], true⟩`, the timeout expiring each time), the loop always terminates
normally — it returns `some` final state, the model's "no exception was
raised" — and in that state the target still has an entry in which the
chunk's acked flag is 0: the chunk is left un-acked. -/
theorem send_chunk_loop_exhaustion (chunk : DataChunk) (dev retries : Nat)
    (hdev : dev ≠ BROADCAST_ADDRESS) :
    ∀ (n : Nat) (send : Bool) (rc : Nat) (s : ControllerState)
      (t : TransferDataStatus) (c : Chunk),
      lookupA s.transfer_data dev = some t →
      t.chunks[chunk.index]? = some c →
      c.acked = 0 →
      ∃ s1 t1 c1,
        (send_chunk_loop chunk dev retries (List.replicate n ⟨[], true⟩)
          send rc s).2 = some s1 ∧
        lookupA s1.transfer_data dev = some t1 ∧
        t1.chunks[chunk.index]? = some c1 ∧
        c1.acked = 0 := by
  intro n
  induction n with
  | zero =>
    intro send rc s t c hlook hidx hacked
    have hpred : is_chunk_acknowledged s chunk dev = some false := by
      simp [is_chunk_acknowledged, hdev, hlook, hidx, hacked]
    refine ⟨s, t, c, ?_, hlook, hidx, hacked⟩
    simp [send_chunk_loop, hpred]
  | succ n ih =>
    intro send rc s t c hlook hidx hacked
    have hpred : is_chunk_acknowledged s chunk dev = some false := by
      simp [is_chunk_acknowledged, hdev, hlook, hidx, hacked]
    rw [List.replicate_succ]
    by_cases hrc : retries < rc
    · refine ⟨s, t, c, ?_, hlook, hidx, hacked⟩
      simp [send_chunk_loop, hpred, hrc]
    · cases send with
      | false =>
        obtain ⟨s1, t1, c1, hret, h1, h2, h3⟩ := ih true rc s t c hlook hidx hacked
        refine ⟨s1, t1, c1, ?_, h1, h2, h3⟩
        simpa [send_chunk_loop, hpred, hrc, processFramesQ, processFrames] using hret
      | true =>
        have hlt : chunk.index < t.chunks.length := by
          by_contra hge
          rw [List.getElem?_eq_none (Nat.le_of_not_lt hge)] at hidx
          cases hidx
        have hset : setRetriesAfterSend s chunk dev rc =
            some { s with
              transfer_data := updateA s.transfer_data dev
                ({ t with chunks := t.chunks.set chunk.index { c with retries := rc } }) } := by
          simp [setRetriesAfterSend, hdev, setChunkRetries, hlook, hidx]
        have hlook2 : lookupA (updateA s.transfer_data dev
            ({ t with chunks := t.chunks.set chunk.index { c with retries := rc } })) dev =
            some ({ t with chunks := t.chunks.set chunk.index { c with retries := rc } }) :=
          lookupA_updateA_self s.transfer_data dev _
        have hidx2 : (t.chunks.set chunk.index { c with retries := rc })[chunk.index]? =
            some { c with retries := rc } :=
          List.getElem?_set_eq_of_lt _ hlt
        obtain ⟨s1, t1, c1, hret, h1, h2, h3⟩ := ih true (rc + 1)
          ({ s with
            transfer_data := updateA s.transfer_data dev
              ({ t with chunks := t.chunks.set chunk.index { c with retries := rc } }) })
          ({ t with chunks := t.chunks.set chunk.index { c with retries := rc } })
          ({ c with retries := rc }) hlook2 hidx2 hacked
        refine ⟨s1, t1, c1, ?_, h1, h2, h3⟩
        simpa [send_chunk_loop, hpred, hrc, hset, processFramesQ, processFrames] using hret

/-- C7 amended: for every chunk, unicast destination, retry limit, observation
trace and starting state (target initialized, chunk index in range, chunk
un-acked), the `send_chunk` loop (entered with `send = true`,
`retries_count = 0`) transmits the chunk at most `retries + 1` times — with
the default limit 5, at most 6 times: one initial send plus up to five
resends — and when no ack ever arrives it exhausts the budget and returns
normally (`some` state: no exception), leaving the chunk's acked flag 0. -/
theorem C7_amended (chunk : DataChunk) (dev retries n : Nat)
    (trace : List LoopObs) (s : ControllerState)
    (t : TransferDataStatus) (c : Chunk)
    (hdev : dev ≠ BROADCAST_ADDRESS)
    (hlook : lookupA s.transfer_data dev = some t)
    (hidx : t.chunks[chunk.index]? = some c)
    (hacked : c.acked = 0) :
    (send_chunk_loop chunk dev retries trace true 0 s).1.length ≤ retries + 1 ∧
    ∃ s1 t1 c1,
      (send_chunk_loop chunk dev retries (List.replicate n ⟨[], true⟩)
        true 0 s).2 = some s1 ∧
      lookupA s1.transfer_data dev = some t1 ∧
      t1.chunks[chunk.index]? = some c1 ∧
      c1.acked = 0 :=
  ⟨by simpa using send_chunk_loop_tx_bound chunk dev retries trace true 0 s,
   send_chunk_loop_exhaustion chunk dev retries hdev n true 0 s t c hlook hidx hacked⟩

/-- C7 witness: the amended claim at the default retry limit 5 on the concrete
no-ack scenario: at most 6 transmissions, and the loop returns a state in
which device 1's chunk 0 is still un-acked. -/
theorem C7_amended_witness :
    (send_chunk_loop ⟨0, 1, [171]⟩ 1 5 (List.replicate 6 ⟨[], true⟩)
      true 0 exC7).1.length ≤ 5 + 1 ∧
    ∃ s1 t1 c1,
      (send_chunk_loop ⟨0, 1, [171]⟩ 1 5 (List.replicate 6 ⟨[], true⟩)
        true 0 exC7).2 = some s1 ∧
      lookupA s1.transfer_data 1 = some t1 ∧
      t1.chunks[(0 : Nat)]? = some c1 ∧
      c1.acked = 0 :=
  C7_amended ⟨0, 1, [171]⟩ 1 5 6 (List.replicate 6 ⟨[], true⟩) exC7
    ⟨[⟨0, 1, 0, 0⟩], 0⟩ ⟨0, 1, 0, 0⟩ (by decide) rfl rfl rfl

/-! ## Claim C2: the session hash. -/

set_option maxHeartbeats 1000000 in
/-- Sanity anchor for the SHA-256 embedding: the standard empty-message test
vector from FIPS 180-4. -/
theorem sha256_empty_vector :
    sha256 [] = [227, 176, 196, 66, 152, 252, 28, 20, 154, 251, 244, 200, 153,
      111, 185, 36, 39, 174, 65, 228, 100, 155, 147, 76, 164, 149, 153, 27,
      120, 82, 184, 85] := by
  decide

set_option maxHeartbeats 4000000 in
/-- C2: the claim states that the `fw_hash` placed in the `OTAStartRequest`
equals SHA-256 of the full firmware image.  The code hashes the concatenated
chunk data instead; for a 128-byte firmware the chunking bug (C1) makes that
concatenation empty, so the emitted hash is the digest of the empty string,
not of the firmware. -/
theorem C2_fw_hash_bug_at_128 :
    fwHash (List.replicate 128 171) = sha256 [] ∧
    fwHash (List.replicate 128 171) ≠ sha256 (List.replicate 128 171) ∧
    (Controller.start_ota exC2 (List.replicate 128 171)).1 =
      [⟨BROADCAST_ADDRESS, .otaStartRequest 128 1 (sha256 [])⟩] := by
  refine ⟨by decide, by decide, by decide⟩

end Swarmit
